import Mathlib

/-!
Shallow embedding of the WalletConnect wallet adapter
(src/packages/core/wallets/src/types.ts, class WalletConnectWalletAdapter).

The adapter is a stateful facade over an external session SDK.  We model its
mutable fields as an explicit record, every async method as a pure function
from the pre-state and an oracle describing the external SDK's behaviour to a
step result (post-state, emitted events, SDK calls performed, and outcome),
and JS exceptions as an explicit thrown value in the step result.
-/

deriving instance DecidableEq for Except

namespace NeoWalletAdapter

/-- The error kinds of the base adapter package that types.ts constructs or
re-raises.  Each carries the optional message the constructor was given. -/
inductive WalletErrorKind where
  | walletConnectionError (message : Option String)
  | walletAccountError (message : Option String)
  | walletDisconnectionError (message : Option String)
  | walletDisconnectedError
  | walletNotConnectedError
  | otherWalletError (message : Option String)
  deriving DecidableEq, Repr

/-- A JS value thrown to a catch block: either an instance of the base
package's WalletError hierarchy, or any other JS error value. -/
inductive Thrown where
  | walletErr (kind : WalletErrorKind)
  | jsErr (message : Option String)
  deriving DecidableEq, Repr

/-- The optional-chained field access used by the source as error?.message. -/
def Thrown.message : Thrown → Option String
  | .walletErr (.walletConnectionError m) => m
  | .walletErr (.walletAccountError m) => m
  | .walletErr (.walletDisconnectionError m) => m
  | .walletErr .walletDisconnectedError => none
  | .walletErr .walletNotConnectedError => none
  | .walletErr (.otherWalletError m) => m
  | .jsErr m => m

/-- Events emitted through the base adapter's emitter. -/
inductive EmittedEvent where
  | connectEvt
  | disconnectEvt
  | errorEvt (error : Thrown)
  deriving DecidableEq, Repr

/-- True exactly on the disconnect event. -/
def isDisconnectEvt : EmittedEvent → Bool
  | .disconnectEvt => true
  | _ => false

/-- Calls the adapter makes into the external session SDK, with the data the
source forwards to each. -/
inductive SdkCall where
  | initClient (logger relayServer : String)
  | sdkConnect (options : String)
  | getAccountAddress
  | subscribeToEvents
  | sdkDisconnect
  | testInvoke (scriptHash operation : String) (args : List String)
      (abortOnFail : Option Bool) (signer : Option String)
  | multiTestInvoke (invocations : List String) (signer : Option (List String))
  | invokeFunction (scriptHash operation : String) (args : List String)
      (abortOnFail : Option Bool) (signer : Option String)
  | multiInvoke (signer : Option (List String)) (invocations : List String)
  deriving DecidableEq, Repr

/-- Modelled from the spec: a single invocation request describes a target
contract, an operation name, a list of typed arguments, an abort-on-failure
flag and an optional list of signer specifications.  The concrete request
types live in the base package, which is not part of this repository;
arguments and signers are kept opaque as strings. -/
structure ContractInvocation where
  scriptHash : String
  operation : String
  args : List String
  abortOnFail : Option Bool
  signers : Option (List String)
  deriving DecidableEq, Repr

/-- Modelled from the spec: a batch invocation request is a list of invocation
descriptors plus a signer list.  Descriptors are kept opaque as strings. -/
structure ContractInvocationMulti where
  invocations : List String
  signers : Option (List String)
  deriving DecidableEq, Repr

/-- The error object inside a raw SDK response (response.result.error). -/
structure RpcError where
  message : Option String
  code : Option Int
  deriving DecidableEq, Repr

/-- The raw execution payload (response.result): the terminal state field,
the optional error object, and the remaining payload fields, kept opaque. -/
structure RpcResultBody where
  state : String
  error : Option RpcError
  extra : List (String × String)
  deriving DecidableEq, Repr

/-- A raw SDK response (RpcCallResult in the SDK package). -/
structure RpcCallResult where
  result : RpcResultBody
  deriving DecidableEq, Repr

/-- The adapter-local result shape shared (up to its type name) by
ContractReadInvocationResult and ContractWriteInvocationResult. -/
inductive ContractInvocationResult where
  | success (data : RpcResultBody)
  | errorResult (message : Option String) (code : Option Int)
  deriving DecidableEq, Repr

/-- The mutable fields of WalletConnectWalletAdapter.  The SDK handle is
opaque: only its presence (WcSdk vs undefined) matters to the control flow.
The configuration fields are fixed at construction. -/
structure AdapterState where
  _address : Option String
  _connecting : Bool
  _options : String
  _logger : String
  _relayServer : String
  _sdk : Option Unit
  deriving DecidableEq, Repr

/-- JS truthiness of a nullable string: null and the empty string are falsy. -/
def truthyStr : Option String → Bool
  | none => false
  | some s => s ≠ ""

/-- The address getter. -/
def AdapterState.address (st : AdapterState) : Option String := st._address

/-- The connecting getter. -/
def AdapterState.connecting (st : AdapterState) : Bool := st._connecting

/-- The connected getter: double-negated truthiness of _address. -/
def AdapterState.connected (st : AdapterState) : Bool := truthyStr st._address

/-- The constructor: address null, connecting false, no SDK handle. -/
def mkAdapter (options logger relayServer : String) : AdapterState :=
  { _address := none, _connecting := false, _options := options,
    _logger := logger, _relayServer := relayServer, _sdk := none }

/-- Result of one void-returning adapter method: post-state, events emitted
in order, SDK calls performed in order, and the raised value if any. -/
structure StepResult where
  state : AdapterState
  events : List EmittedEvent
  sdkCalls : List SdkCall
  thrown : Option Thrown
  deriving DecidableEq, Repr

/-- Oracle for the external calls connect makes: the outcome of initClient,
of sdk.connect, the presence of sdk.session afterwards, and the outcome of
getAccountAddress. -/
structure ConnectBehavior where
  initClientResult : Except Thrown Unit
  connectResult : Except Thrown Unit
  sessionPresent : Bool
  accountAddressResult : Except Thrown String
  deriving DecidableEq, Repr

/-- The inner catch of connect: a WalletError instance is re-raised unchanged,
anything else is wrapped as WalletConnectionError with the error's message. -/
def wrapConnectionError : Thrown → Thrown
  | .walletErr k => .walletErr k
  | .jsErr m => .walletErr (.walletConnectionError m)

/-- The body of connect's outer try after the idempotency guard: assign a
fresh SDK handle, run initClient and sdk.connect (wrapping failures), check
session presence, retrieve the account address (wrapping failures as
WalletAccountError), subscribe to events and emit the connect event. -/
def connectTryBody (st : AdapterState) (b : ConnectBehavior) : StepResult :=
  let st1 : AdapterState := { st with _sdk := some () }
  match b.initClientResult with
  | .error e =>
      ⟨st1, [], [.initClient st._logger st._relayServer], some (wrapConnectionError e)⟩
  | .ok _ =>
    match b.connectResult with
    | .error e =>
        ⟨st1, [],
          [.initClient st._logger st._relayServer, .sdkConnect st._options],
          some (wrapConnectionError e)⟩
    | .ok _ =>
      if !b.sessionPresent then
        ⟨st1, [],
          [.initClient st._logger st._relayServer, .sdkConnect st._options],
          some (.walletErr (.walletAccountError none))⟩
      else
        match b.accountAddressResult with
        | .error e =>
            ⟨st1, [],
              [.initClient st._logger st._relayServer, .sdkConnect st._options,
                .getAccountAddress],
              some (.walletErr (.walletAccountError e.message))⟩
        | .ok a =>
            ⟨{ st1 with _address := some a }, [.connectEvt],
              [.initClient st._logger st._relayServer, .sdkConnect st._options,
                .getAccountAddress, .subscribeToEvents],
              none⟩

/-- connect(): returns early when already connected or connecting; otherwise
sets the connecting flag and runs the body.  The catch clause emits the error
event and re-raises; the finally clause clears the connecting flag on every
exit path, the early return included. -/
def connect (st : AdapterState) (b : ConnectBehavior) : StepResult :=
  if st.connected || st._connecting then
    { state := { st with _connecting := false }, events := [], sdkCalls := [],
      thrown := none }
  else
    let r := connectTryBody { st with _connecting := true } b
    match r.thrown with
    | none => { r with state := { r.state with _connecting := false } }
    | some e =>
        { state := { r.state with _connecting := false },
          events := r.events ++ [.errorEvt e],
          sdkCalls := r.sdkCalls,
          thrown := some e }

/-- disconnect(): when an SDK handle is held, request remote teardown; on
success clear address and handle, on failure emit a WalletDisconnectionError
event and keep the state.  Always emit the disconnect event last and never
raise. -/
def disconnect (st : AdapterState) (b : Except Thrown Unit) : StepResult :=
  match st._sdk with
  | none => ⟨st, [.disconnectEvt], [], none⟩
  | some _ =>
    match b with
    | .ok _ =>
        ⟨{ st with _address := none, _sdk := none }, [.disconnectEvt],
          [.sdkDisconnect], none⟩
    | .error e =>
        ⟨st,
          [.errorEvt (.walletErr (.walletDisconnectionError e.message)),
            .disconnectEvt],
          [.sdkDisconnect], none⟩

/-- The forced-disconnect handler (_disconnected), invoked by the SDK's
session-deletion event: when an SDK handle is held, clear address and handle
and emit the WalletDisconnectedError event followed by the disconnect event;
otherwise do nothing. -/
def _disconnected (st : AdapterState) : StepResult :=
  match st._sdk with
  | none => ⟨st, [], [], none⟩
  | some _ =>
      ⟨{ st with _address := none, _sdk := none },
        [.errorEvt (.walletErr .walletDisconnectedError), .disconnectEvt],
        [], none⟩

/-- _responseToReadResult: HALT means success with the spread of
response.result as data; otherwise an error result with the optional-chained
message and code of response.result.error. -/
def _responseToReadResult (response : RpcCallResult) : ContractInvocationResult :=
  if response.result.state = "HALT" then
    .success response.result
  else
    .errorResult (response.result.error.bind RpcError.message)
      (response.result.error.bind RpcError.code)

/-- _responseToWriteResult: a verbatim second copy of the read translation,
as in the source. -/
def _responseToWriteResult (response : RpcCallResult) : ContractInvocationResult :=
  if response.result.state = "HALT" then
    .success response.result
  else
    .errorResult (response.result.error.bind RpcError.message)
      (response.result.error.bind RpcError.code)

/-- Result of one invocation method: post-state, events, SDK calls, and
either the returned invocation result or the raised value. -/
structure InvokeStep where
  state : AdapterState
  events : List EmittedEvent
  sdkCalls : List SdkCall
  outcome : Except Thrown ContractInvocationResult
  deriving DecidableEq, Repr

/-- invokeRead(request): throw WalletNotConnectedError when no SDK handle is
held; otherwise forward scriptHash, operation, args, abortOnFail and the
first signer to testInvoke and translate the response; on an SDK failure
emit the error event and re-raise. -/
def invokeRead (st : AdapterState) (request : ContractInvocation)
    (b : Except Thrown RpcCallResult) : InvokeStep :=
  match st._sdk with
  | none => ⟨st, [], [], .error (.walletErr .walletNotConnectedError)⟩
  | some _ =>
    let call := SdkCall.testInvoke request.scriptHash request.operation
      request.args request.abortOnFail (request.signers.bind List.head?)
    match b with
    | .ok response => ⟨st, [], [call], .ok (_responseToReadResult response)⟩
    | .error e => ⟨st, [.errorEvt e], [call], .error e⟩

/-- invokeReadMulti(request): same guard and error policy as invokeRead, but
forwarding the invocation list and full signer list to multiTestInvoke. -/
def invokeReadMulti (st : AdapterState) (request : ContractInvocationMulti)
    (b : Except Thrown RpcCallResult) : InvokeStep :=
  match st._sdk with
  | none => ⟨st, [], [], .error (.walletErr .walletNotConnectedError)⟩
  | some _ =>
    let call := SdkCall.multiTestInvoke request.invocations request.signers
    match b with
    | .ok response => ⟨st, [], [call], .ok (_responseToReadResult response)⟩
    | .error e => ⟨st, [.errorEvt e], [call], .error e⟩

/-- invoke(request): same guard and error policy, forwarding to
invokeFunction and translating with the write-path translation. -/
def invoke (st : AdapterState) (request : ContractInvocation)
    (b : Except Thrown RpcCallResult) : InvokeStep :=
  match st._sdk with
  | none => ⟨st, [], [], .error (.walletErr .walletNotConnectedError)⟩
  | some _ =>
    let call := SdkCall.invokeFunction request.scriptHash request.operation
      request.args request.abortOnFail (request.signers.bind List.head?)
    match b with
    | .ok response => ⟨st, [], [call], .ok (_responseToWriteResult response)⟩
    | .error e => ⟨st, [.errorEvt e], [call], .error e⟩

/-- invokeMulti(request): same guard and error policy, forwarding to
multiInvoke and translating with the write-path translation. -/
def invokeMulti (st : AdapterState) (request : ContractInvocationMulti)
    (b : Except Thrown RpcCallResult) : InvokeStep :=
  match st._sdk with
  | none => ⟨st, [], [], .error (.walletErr .walletNotConnectedError)⟩
  | some _ =>
    let call := SdkCall.multiInvoke request.signers request.invocations
    match b with
    | .ok response => ⟨st, [], [call], .ok (_responseToWriteResult response)⟩
    | .error e => ⟨st, [.errorEvt e], [call], .error e⟩

/-- States reachable from a freshly constructed adapter by any sequence of
operations with any SDK behaviours. -/
inductive Reachable : AdapterState → Prop where
  | init (options logger relayServer : String) :
      Reachable (mkAdapter options logger relayServer)
  | stepConnect {st} (b : ConnectBehavior) :
      Reachable st → Reachable (connect st b).state
  | stepDisconnect {st} (b : Except Thrown Unit) :
      Reachable st → Reachable (disconnect st b).state
  | stepForced {st} :
      Reachable st → Reachable (_disconnected st).state
  | stepInvokeRead {st} (r : ContractInvocation) (b : Except Thrown RpcCallResult) :
      Reachable st → Reachable (invokeRead st r b).state
  | stepInvokeReadMulti {st} (r : ContractInvocationMulti) (b : Except Thrown RpcCallResult) :
      Reachable st → Reachable (invokeReadMulti st r b).state
  | stepInvoke {st} (r : ContractInvocation) (b : Except Thrown RpcCallResult) :
      Reachable st → Reachable (invoke st r b).state
  | stepInvokeMulti {st} (r : ContractInvocationMulti) (b : Except Thrown RpcCallResult) :
      Reachable st → Reachable (invokeMulti st r b).state

/-- The result-translation rule as the spec states it, for comparison with
the two translation functions of the source: terminal state HALT means
success carrying the verbatim payload, anything else means an error result
with the error object's message and code when present. -/
def specResultRule (response : RpcCallResult) : ContractInvocationResult :=
  if response.result.state = "HALT" then
    ContractInvocationResult.success response.result
  else
    ContractInvocationResult.errorResult
      (match response.result.error with
        | some e => e.message
        | none => none)
      (match response.result.error with
        | some e => e.code
        | none => none)

/-- Helper: Option.bind over the error object agrees with the spec-side
match on presence. -/
theorem errorBind_eq_match (o : Option RpcError) (f : RpcError → Option String) :
    o.bind f = (match o with | some e => f e | none => none) := by
  cases o <;> rfl

/-- C6: the read-path and write-path result translations are extensionally
equal: on every raw SDK response they produce the same result. -/
theorem read_write_translation_equal (response : RpcCallResult) :
    _responseToReadResult response = _responseToWriteResult response := rfl

/-- C3: the translation used by all four invocation paths sends a response
whose terminal state field is HALT to a success result carrying the raw
execution payload verbatim, and any other response to an error result with
the error object's message and code when present; both source translation
functions equal the spec's rule, and each of the four invocation calls made
with a held SDK handle and a successful SDK response returns exactly the
translated response. -/
theorem result_translation_correct (response : RpcCallResult)
    (st : AdapterState) (h : st._sdk = some ())
    (r : ContractInvocation) (m : ContractInvocationMulti) :
    _responseToReadResult response = specResultRule response ∧
    _responseToWriteResult response = specResultRule response ∧
    (invokeRead st r (.ok response)).outcome = .ok (specResultRule response) ∧
    (invokeReadMulti st m (.ok response)).outcome = .ok (specResultRule response) ∧
    (invoke st r (.ok response)).outcome = .ok (specResultRule response) ∧
    (invokeMulti st m (.ok response)).outcome = .ok (specResultRule response) := by
  have hrule : _responseToReadResult response = specResultRule response := by
    unfold _responseToReadResult specResultRule
    rcases hh : response.result.error with _ | e <;> simp [hh]
  refine ⟨hrule, hrule, ?_, ?_, ?_, ?_⟩ <;>
    simp [invokeRead, invokeReadMulti, invoke, invokeMulti, h,
      _responseToWriteResult, ← hrule, _responseToReadResult]

/-- Concrete response with a non-HALT state used by the C3 witness. -/
def c3Response : RpcCallResult :=
  { result := { state := "FAULT",
                error := some { message := some "m", code := some 7 },
                extra := [] } }

/-- Concrete connected adapter state used by the C3 witness. -/
def c3State : AdapterState :=
  { _address := some "NAddr", _connecting := false, _options := "o",
    _logger := "l", _relayServer := "r", _sdk := some () }

/-- Witness for C3 at a concrete faulted response and connected state. -/
theorem result_translation_correct_witness :
    c3State._sdk = some () ∧
    (_responseToReadResult c3Response = specResultRule c3Response ∧
      _responseToWriteResult c3Response = specResultRule c3Response ∧
      (invokeRead c3State ⟨"sh", "op", [], none, none⟩ (.ok c3Response)).outcome =
        .ok (specResultRule c3Response) ∧
      (invokeReadMulti c3State ⟨[], none⟩ (.ok c3Response)).outcome =
        .ok (specResultRule c3Response) ∧
      (invoke c3State ⟨"sh", "op", [], none, none⟩ (.ok c3Response)).outcome =
        .ok (specResultRule c3Response) ∧
      (invokeMulti c3State ⟨[], none⟩ (.ok c3Response)).outcome =
        .ok (specResultRule c3Response)) :=
  ⟨rfl, result_translation_correct c3Response c3State rfl
    ⟨"sh", "op", [], none, none⟩ ⟨[], none⟩⟩

/-- C5: every disconnect call emits the disconnect event exactly once and
never raises, and when an SDK handle is held and the remote teardown fails
the events are exactly one error event carrying a WalletDisconnectionError
followed by the disconnect event. -/
theorem disconnect_event_discipline (st : AdapterState) (b : Except Thrown Unit) :
    (disconnect st b).events.countP isDisconnectEvt = 1 ∧
    (disconnect st b).thrown = none ∧
    (∀ e, st._sdk = some () → b = .error e →
      (disconnect st b).events =
        [.errorEvt (.walletErr (.walletDisconnectionError e.message)),
          .disconnectEvt]) := by
  rcases hs : st._sdk with _ | u <;> rcases hb : b with e | v <;>
    simp [disconnect, hs, isDisconnectEvt]

/-- Concrete adapter state with a held SDK handle used by the C5 witness. -/
def c5State : AdapterState :=
  { _address := some "NAddr", _connecting := false, _options := "o",
    _logger := "l", _relayServer := "r", _sdk := some () }

/-- Witness for C5: a held session whose teardown fails emits the
disconnection-error event and then the disconnect event. -/
theorem disconnect_event_discipline_witness :
    (disconnect c5State (.error (.jsErr (some "boom")))).events =
      [.errorEvt (.walletErr (.walletDisconnectionError (some "boom"))),
        .disconnectEvt] :=
  (disconnect_event_discipline c5State
    (.error (.jsErr (some "boom")))).2.2 (.jsErr (some "boom")) rfl rfl

/-- C7: a connect whose session initiation and handshake both succeed but
which ends with no session present raises a WalletAccountError (constructed
with no message), not a WalletConnectionError. -/
theorem no_session_raises_account_error (st : AdapterState) (b : ConnectBehavior)
    (hc : st.connected = false) (hg : st._connecting = false)
    (h1 : b.initClientResult = .ok ()) (h2 : b.connectResult = .ok ())
    (h3 : b.sessionPresent = false) :
    (connect st b).thrown = some (.walletErr (.walletAccountError none)) := by
  simp [connect, connectTryBody, hc, hg, h1, h2, h3]

/-- Witness for C7 at a fresh adapter and a behaviour whose handshake
succeeds with no resulting session. -/
theorem no_session_raises_account_error_witness :
    (mkAdapter "o" "l" "r").connected = false ∧
    (connect (mkAdapter "o" "l" "r") ⟨.ok (), .ok (), false, .ok "NAddr"⟩).thrown =
      some (.walletErr (.walletAccountError none)) :=
  ⟨rfl, no_session_raises_account_error (mkAdapter "o" "l" "r")
    ⟨.ok (), .ok (), false, .ok "NAddr"⟩ rfl rfl rfl rfl rfl⟩

/-- C8: connect leaves the connecting flag false on every exit path: the
early return of the guard, every raised error and normal completion. -/
theorem connecting_cleared_on_every_exit (st : AdapterState) (b : ConnectBehavior) :
    (connect st b).state._connecting = false := by
  unfold connect
  split
  · rfl
  · cases hth : (connectTryBody { st with _connecting := true } b).thrown <;>
      simp [hth]

/-- C9: from a state with a held SDK handle, the forced-disconnect handler
first emits the unexpected-disconnection error event followed by the
disconnect event and clears address and handle; invoked again on the
resulting state it emits nothing and changes nothing. -/
theorem forced_disconnect_twice (st : AdapterState) (h : st._sdk = some ()) :
    (_disconnected st).events =
      [.errorEvt (.walletErr .walletDisconnectedError), .disconnectEvt] ∧
    (_disconnected st).state._address = none ∧
    (_disconnected st).state._sdk = none ∧
    (_disconnected (_disconnected st).state).events = [] ∧
    (_disconnected (_disconnected st).state).state = (_disconnected st).state := by
  simp [_disconnected, h]

/-- Concrete adapter state with a held SDK handle used by the C9 witness. -/
def c9State : AdapterState :=
  { _address := some "NAddr", _connecting := false, _options := "o",
    _logger := "l", _relayServer := "r", _sdk := some () }

/-- Witness for C9 at a concrete connected state. -/
theorem forced_disconnect_twice_witness :
    (_disconnected c9State).events =
      [.errorEvt (.walletErr .walletDisconnectedError), .disconnectEvt] ∧
    (_disconnected c9State).state._address = none ∧
    (_disconnected c9State).state._sdk = none ∧
    (_disconnected (_disconnected c9State).state).events = [] ∧
    (_disconnected (_disconnected c9State).state).state =
      (_disconnected c9State).state :=
  forced_disconnect_twice c9State rfl

/-- C10: when the remote teardown inside disconnect fails, the state is left
unchanged, so the SDK handle and address are still held and an invocation
made immediately afterwards is forwarded to the SDK instead of raising the
not-connected error. -/
theorem failed_disconnect_keeps_session (st : AdapterState) (e : Thrown)
    (h : st._sdk = some ()) (r : ContractInvocation) (resp : RpcCallResult) :
    (disconnect st (.error e)).state = st ∧
    (invokeRead st r (.ok resp)).outcome = .ok (_responseToReadResult resp) ∧
    (invokeRead st r (.ok resp)).outcome ≠
      .error (.walletErr .walletNotConnectedError) ∧
    (invokeRead st r (.ok resp)).sdkCalls ≠ [] := by
  simp [disconnect, invokeRead, h]

/-- Concrete adapter state with a held SDK handle used by the C10 witness. -/
def c10State : AdapterState :=
  { _address := some "NAddr", _connecting := false, _options := "o",
    _logger := "l", _relayServer := "r", _sdk := some () }

/-- Concrete HALT response used by the C10 witness. -/
def c10Response : RpcCallResult :=
  { result := { state := "HALT", error := none, extra := [("stack", "[]")] } }

/-- Witness for C10 at a concrete state and response. -/
theorem failed_disconnect_keeps_session_witness :
    (disconnect c10State (.error (.jsErr (some "relay down")))).state = c10State ∧
    (invokeRead c10State ⟨"sh", "op", [], none, none⟩ (.ok c10Response)).outcome =
      .ok (_responseToReadResult c10Response) ∧
    (invokeRead c10State ⟨"sh", "op", [], none, none⟩ (.ok c10Response)).outcome ≠
      .error (.walletErr .walletNotConnectedError) ∧
    (invokeRead c10State ⟨"sh", "op", [], none, none⟩ (.ok c10Response)).sdkCalls ≠ [] :=
  failed_disconnect_keeps_session c10State (.jsErr (some "relay down")) rfl
    ⟨"sh", "op", [], none, none⟩ c10Response

/-- Connect behaviour whose initClient call fails: used to reach a state
where the SDK handle was assigned but no address was ever obtained. -/
def c1Behavior : ConnectBehavior :=
  { initClientResult := .error (.jsErr (some "relay down")),
    connectResult := .ok (), sessionPresent := true,
    accountAddressResult := .ok "NAddr" }

/-- The state after a fresh adapter runs connect with c1Behavior: the connect
call raised, connected is false, yet the SDK handle is still held. -/
def c1State : AdapterState := (connect (mkAdapter "o1" "l1" "r1") c1Behavior).state

/-- C1 counterexample: a reachable state where connected is false but an
invocation call is forwarded to the SDK and does not raise the not-connected
error, refuting the claim that every invocation made while connected is
false fails with WalletNotConnectedError and performs no SDK call. -/
theorem invoke_guard_counterexample :
    Reachable c1State ∧
    c1State.connected = false ∧
    (invokeRead c1State ⟨"sh", "op", [], none, none⟩ (.ok c10Response)).sdkCalls ≠ [] ∧
    (invokeRead c1State ⟨"sh", "op", [], none, none⟩ (.ok c10Response)).outcome ≠
      .error (.walletErr .walletNotConnectedError) :=
  ⟨Reachable.stepConnect c1Behavior (Reachable.init "o1" "l1" "r1"),
    by decide, by decide, by decide⟩

/-- C1 amended: an invocation call made while no SDK handle is held fails
immediately with WalletNotConnectedError, performs no SDK call, emits no
event and leaves the state unchanged, on all four invocation paths; the
guard is the presence of the SDK handle, not the connected flag. -/
theorem invoke_not_connected_guard (st : AdapterState) (h : st._sdk = none)
    (r : ContractInvocation) (m : ContractInvocationMulti)
    (b1 b2 b3 b4 : Except Thrown RpcCallResult) :
    (invokeRead st r b1).outcome = .error (.walletErr .walletNotConnectedError) ∧
    (invokeRead st r b1).sdkCalls = [] ∧
    (invokeRead st r b1).events = [] ∧
    (invokeRead st r b1).state = st ∧
    (invokeReadMulti st m b2).outcome = .error (.walletErr .walletNotConnectedError) ∧
    (invokeReadMulti st m b2).sdkCalls = [] ∧
    (invokeReadMulti st m b2).events = [] ∧
    (invokeReadMulti st m b2).state = st ∧
    (invoke st r b3).outcome = .error (.walletErr .walletNotConnectedError) ∧
    (invoke st r b3).sdkCalls = [] ∧
    (invoke st r b3).events = [] ∧
    (invoke st r b3).state = st ∧
    (invokeMulti st m b4).outcome = .error (.walletErr .walletNotConnectedError) ∧
    (invokeMulti st m b4).sdkCalls = [] ∧
    (invokeMulti st m b4).events = [] ∧
    (invokeMulti st m b4).state = st := by
  simp [invokeRead, invokeReadMulti, invoke, invokeMulti, h]

/-- Witness for the amended C1 at a fresh adapter, which holds no SDK
handle. -/
theorem invoke_not_connected_guard_witness :
    (mkAdapter "o" "l" "r")._sdk = none ∧
    (invokeRead (mkAdapter "o" "l" "r") ⟨"sh", "op", [], none, none⟩
        (.ok c3Response)).outcome =
      .error (.walletErr .walletNotConnectedError) :=
  ⟨rfl, (invoke_not_connected_guard (mkAdapter "o" "l" "r") rfl
    ⟨"sh", "op", [], none, none⟩ ⟨[], none⟩
    (.ok c3Response) (.ok c3Response) (.ok c3Response) (.ok c3Response)).1⟩

/-- Connect behaviour whose handshake succeeds but whose address retrieval
throws: used for the C2 counterexample. -/
def c2Behavior : ConnectBehavior :=
  { initClientResult := .ok (), connectResult := .ok (),
    sessionPresent := true,
    accountAddressResult := .error (.jsErr (some "no account")) }

/-- The state after a fresh adapter runs connect with c2Behavior: the SDK
handle is held but the address is null. -/
def c2State : AdapterState := (connect (mkAdapter "o2" "l2" "r2") c2Behavior).state

/-- C2 counterexample: a reachable post-operation state holding an SDK
handle with a null address, refuting the claim that the address is non-null
exactly when the session handle is held and that the two are set together. -/
theorem session_address_invariant_counterexample :
    Reachable c2State ∧
    c2State._sdk = some () ∧
    c2State._address = none :=
  ⟨Reachable.stepConnect c2Behavior (Reachable.init "o2" "l2" "r2"),
    by decide, by decide⟩

/-- Helper for the amended C2: every branch of connect's try body leaves the
SDK handle assigned. -/
theorem connectTryBody_sdk_assigned (st : AdapterState) (b : ConnectBehavior) :
    (connectTryBody st b).state._sdk = some () := by
  unfold connectTryBody
  rcases b.initClientResult with e | v
  · rfl
  · rcases b.connectResult with e | v2
    · rfl
    · rcases hs : b.sessionPresent with _ | _
      · simp [hs]
      · rcases b.accountAddressResult with e | a <;> simp [hs]

/-- C2 amended: one direction of the claimed invariant holds on every
reachable state: whenever the account address is held, the SDK handle is
held; the converse fails, because a connect that raises after assigning the
fresh SDK handle leaves the handle held with a null address. -/
theorem address_implies_session (st : AdapterState) (h : Reachable st) :
    st._address.isSome = true → st._sdk.isSome = true := by
  induction h with
  | init o l r => intro hz; simp [mkAdapter] at hz
  | @stepConnect s b hst ih =>
      by_cases hg : (s.connected || s._connecting) = true
      · simp [connect, hg]
        exact ih
      · simp [connect, hg]
        cases hth : (connectTryBody { s with _connecting := true } b).thrown <;>
          simp [hth, connectTryBody_sdk_assigned]
  | @stepDisconnect s b hst ih =>
      rcases hs : s._sdk with _ | u <;> rcases hb : b with e | v <;>
        simp [disconnect, hs, hb] <;> first | exact ih | simpa [hs] using ih
  | @stepForced s hst ih =>
      rcases hs : s._sdk with _ | u
      · simp [_disconnected, hs]
        simpa [hs] using ih
      · simp [_disconnected, hs]
  | @stepInvokeRead s r b hst ih =>
      rcases hs : s._sdk with _ | u <;> rcases hb : b with e | v <;>
        simp [invokeRead, hs, hb] <;> first | exact ih | simpa [hs] using ih
  | @stepInvokeReadMulti s r b hst ih =>
      rcases hs : s._sdk with _ | u <;> rcases hb : b with e | v <;>
        simp [invokeReadMulti, hs, hb] <;> first | exact ih | simpa [hs] using ih
  | @stepInvoke s r b hst ih =>
      rcases hs : s._sdk with _ | u <;> rcases hb : b with e | v <;>
        simp [invoke, hs, hb] <;> first | exact ih | simpa [hs] using ih
  | @stepInvokeMulti s r b hst ih =>
      rcases hs : s._sdk with _ | u <;> rcases hb : b with e | v <;>
        simp [invokeMulti, hs, hb] <;> first | exact ih | simpa [hs] using ih

/-- Successful connect behaviour used by the amended C2 witness. -/
def c2GoodBehavior : ConnectBehavior :=
  { initClientResult := .ok (), connectResult := .ok (),
    sessionPresent := true, accountAddressResult := .ok "NAddr2" }

/-- Witness for the amended C2 at the reachable state after one successful
connect, where the address is held. -/
theorem address_implies_session_witness :
    (connect (mkAdapter "o3" "l3" "r3") c2GoodBehavior).state._address.isSome = true ∧
    (connect (mkAdapter "o3" "l3" "r3") c2GoodBehavior).state._sdk.isSome = true :=
  ⟨by decide,
    address_implies_session _
      (Reachable.stepConnect c2GoodBehavior (Reachable.init "o3" "l3" "r3"))
      (by decide)⟩

/-- A state in which the connecting flag is set, as observed by a re-entrant
connect call while a first connect is awaiting the SDK. -/
def c4State : AdapterState :=
  { _address := none, _connecting := true, _options := "o4",
    _logger := "l4", _relayServer := "r4", _sdk := none }

/-- C4 counterexample: calling connect while the connecting flag is true
performs no SDK call and resolves without raising, but it does not leave
every field unchanged: the finally clause clears the connecting flag, so the
post-state differs from the pre-state, refuting the no-op part of the
claim. -/
theorem connect_guard_counterexample :
    (c4State.connected = true ∨ c4State._connecting = true) ∧
    (connect c4State c2GoodBehavior).sdkCalls = [] ∧
    (connect c4State c2GoodBehavior).thrown = none ∧
    (connect c4State c2GoodBehavior).state._connecting ≠ c4State._connecting := by
  refine ⟨Or.inr rfl, rfl, rfl, by decide⟩

/-- C4 amended: a connect call made while connected or connecting performs
no SDK call, emits no event and resolves without raising, and leaves the
address and SDK handle unchanged; the connecting flag, however, is always
false afterwards rather than unchanged, because the finally clause also runs
on the early return. -/
theorem connect_guard_early_return (st : AdapterState) (b : ConnectBehavior)
    (h : st.connected = true ∨ st._connecting = true) :
    (connect st b).sdkCalls = [] ∧
    (connect st b).events = [] ∧
    (connect st b).thrown = none ∧
    (connect st b).state = { st with _connecting := false } := by
  have hg : (st.connected || st._connecting) = true := by
    rcases h with h | h <;> simp [h]
  simp [connect, hg]

/-- Witness for the amended C4 at a connected state. -/
theorem connect_guard_early_return_witness :
    (c3State.connected = true ∨ c3State._connecting = true) ∧
    ((connect c3State c2GoodBehavior).sdkCalls = [] ∧
      (connect c3State c2GoodBehavior).events = [] ∧
      (connect c3State c2GoodBehavior).thrown = none ∧
      (connect c3State c2GoodBehavior).state = { c3State with _connecting := false }) :=
  ⟨Or.inl (by decide),
    connect_guard_early_return c3State c2GoodBehavior (Or.inl (by decide))⟩

end NeoWalletAdapter
